import Mathlib

/-!
Shallow embedding of the `postgis` module of
`testcontainers-rs-modules-community` (src/postgis/mod.rs), together with a
spec-faithful model of its collaborators, and proofs of the specified
properties of the module.
-/

set_option maxHeartbeats 1000000

namespace Testcontainers

/-- Model of the external crate type `testcontainers::core::WaitFor`:
a readiness condition observed by the container runtime.  Only the shape
needed by the postgres/postgis images (a log-message condition) is kept. -/
inductive WaitFor where
  | messageOnStdErr (message : String)
deriving DecidableEq, Repr

/-- Model of the external crate type `testcontainers::CopyDataSource`:
either inline byte content or a reference to external content (a path),
exactly the two alternatives the spec names for `with_init_sql`. -/
inductive CopyDataSource where
  | data (bytes : List Nat)
  | file (path : String)
deriving DecidableEq, Repr

/-- Model of the external crate type `testcontainers::CopyToContainer`:
one content item staged into the container at a target path. -/
structure CopyToContainer where
  source : CopyDataSource
  target : String
deriving DecidableEq, Repr

/-- Insertion into an environment-variable mapping.  The Rust code stores
environment variables in a `HashMap` (keys unique, iteration order not
significant); the canonical shallow embedding is a key-sorted association
list, with insertion replacing any existing binding of the same key. -/
def envInsert (k v : String) : List (String × String) → List (String × String)
  | [] => [(k, v)]
  | (k₂, v₂) :: rest =>
    if k = k₂ then (k, v) :: rest
    else if k < k₂ then (k, v) :: (k₂, v₂) :: rest
    else (k₂, v₂) :: envInsert k v rest

/-- Lookup in an environment-variable mapping. -/
def envLookup (k : String) : List (String × String) → Option String
  | [] => none
  | (k₂, v₂) :: rest => if k₂ = k then some v₂ else envLookup k rest

/-- Modelled from the spec: the base image type `Postgres`
(`super::postgres::Postgres`), which belongs to this repository but is not
under src/.  Per the spec's data model, it carries an environment-variable
mapping (reflecting db name, user, password and auth mode), an ordered,
appended-to sequence of files to copy in (the init-SQL scripts), and a
durability (fsync) flag. -/
structure Postgres where
  env_vars : List (String × String)
  copy_to_sources : List CopyToContainer
  fsync_enabled : Bool
deriving DecidableEq, Repr

namespace Postgres

/-- Modelled from the spec: the base image's own fixed distributable name,
"a different distributable image than the base" seen from the derived spec. -/
def NAME : String := "postgres"

/-- Modelled from the spec: the base image's own fixed version tag. -/
def TAG : String := "11-alpine"

/-- Modelled from the spec: default construction of the base configuration,
with default db name / user / password in the environment, no staged files,
and the durability flag at its test-optimized disabled default. -/
def default : Postgres :=
  { env_vars :=
      [("POSTGRES_DB", "postgres"),
       ("POSTGRES_PASSWORD", "postgres"),
       ("POSTGRES_USER", "postgres")],
    copy_to_sources := [],
    fsync_enabled := false }

/-- Modelled from the spec: `Postgres::with_host_auth` sets the
trust/no-auth marker environment variable (`POSTGRES_HOST_AUTH_METHOD`). -/
def with_host_auth (p : Postgres) : Postgres :=
  { p with env_vars := envInsert "POSTGRES_HOST_AUTH_METHOD" "trust" p.env_vars }

/-- Modelled from the spec: `Postgres::with_db_name` sets the database name
created at container start; no validation is performed. -/
def with_db_name (p : Postgres) (db_name : String) : Postgres :=
  { p with env_vars := envInsert "POSTGRES_DB" db_name p.env_vars }

/-- Modelled from the spec: `Postgres::with_user` sets the bootstrap role
user; no validation is performed. -/
def with_user (p : Postgres) (user : String) : Postgres :=
  { p with env_vars := envInsert "POSTGRES_USER" user p.env_vars }

/-- Modelled from the spec: `Postgres::with_password` sets the bootstrap
role password; no validation is performed. -/
def with_password (p : Postgres) (password : String) : Postgres :=
  { p with env_vars := envInsert "POSTGRES_PASSWORD" password p.env_vars }

/-- Modelled from the spec: `Postgres::with_init_sql` appends one bootstrap
script to the ordered list of files to stage, each at a target path in the
image's init directory; previous scripts are never removed or overwritten. -/
def with_init_sql (p : Postgres) (init_sql : CopyDataSource) : Postgres :=
  { p with copy_to_sources :=
      p.copy_to_sources ++
        [⟨init_sql,
          "/docker-entrypoint-initdb.d/init_" ++
            toString p.copy_to_sources.length ++ ".sql"⟩] }

/-- Modelled from the spec: `Postgres::with_fsync_enabled` toggles the
durability setting from its disabled default to enabled. -/
def with_fsync_enabled (p : Postgres) : Postgres :=
  { p with fsync_enabled := true }

/-- Modelled from the spec: the base image's readiness conditions, the
startup signal of the underlying database engine. -/
def ready_conditions (_ : Postgres) : List WaitFor :=
  [WaitFor.messageOnStdErr "database system is ready to accept connections"]

/-- Modelled from the spec: the base image's startup command tokens; the
test-optimized default disables fsync, `with_fsync_enabled` restores the
engine's own default durability. -/
def cmd (p : Postgres) : List String :=
  if p.fsync_enabled then [] else ["postgres", "-c", "fsync=off"]

end Postgres

/-- From src/postgis/mod.rs: `const NAME: &str = "postgis/postgis";`. -/
def NAME : String := "postgis/postgis"

/-- From src/postgis/mod.rs: `const TAG: &str = "17-3.5";`. -/
def TAG : String := "17-3.5"

/-- From src/postgis/mod.rs: `pub struct Postgis(Postgres);`
a wrapper owning exactly one base `Postgres` value. -/
structure Postgis where
  base : Postgres
deriving DecidableEq, Repr

namespace Postgis

/-- From src/postgis/mod.rs: `#[derive(.., Default)]` — default construction
default-constructs the inner base value. -/
def default : Postgis := ⟨Postgres.default⟩

/-- From src/postgis/mod.rs: `with_host_auth` delegates to the base. -/
def with_host_auth (p : Postgis) : Postgis := ⟨p.base.with_host_auth⟩

/-- From src/postgis/mod.rs: `with_db_name` delegates to the base. -/
def with_db_name (p : Postgis) (db_name : String) : Postgis :=
  ⟨p.base.with_db_name db_name⟩

/-- From src/postgis/mod.rs: `with_user` delegates to the base. -/
def with_user (p : Postgis) (user : String) : Postgis := ⟨p.base.with_user user⟩

/-- From src/postgis/mod.rs: `with_password` delegates to the base. -/
def with_password (p : Postgis) (password : String) : Postgis :=
  ⟨p.base.with_password password⟩

/-- From src/postgis/mod.rs: `with_init_sql` delegates to the base. -/
def with_init_sql (p : Postgis) (init_sql : CopyDataSource) : Postgis :=
  ⟨p.base.with_init_sql init_sql⟩

/-- From src/postgis/mod.rs: `with_fsync_enabled` delegates to the base. -/
def with_fsync_enabled (p : Postgis) : Postgis := ⟨p.base.with_fsync_enabled⟩

/-- From src/postgis/mod.rs: `fn name(&self) -> &str { NAME }`. -/
def name (_ : Postgis) : String := NAME

/-- From src/postgis/mod.rs: `fn tag(&self) -> &str { TAG }`. -/
def tag (_ : Postgis) : String := TAG

/-- From src/postgis/mod.rs: `ready_conditions` forwards to the base. -/
def ready_conditions (p : Postgis) : List WaitFor := p.base.ready_conditions

/-- From src/postgis/mod.rs: `env_vars` forwards to the base. -/
def env_vars (p : Postgis) : List (String × String) := p.base.env_vars

/-- From src/postgis/mod.rs: `copy_to_sources` forwards to the base. -/
def copy_to_sources (p : Postgis) : List CopyToContainer := p.base.copy_to_sources

/-- From src/postgis/mod.rs: `cmd` forwards to the base. -/
def cmd (p : Postgis) : List String := p.base.cmd

end Postgis

/-- One builder call of the `Postgis` fluent interface. -/
inductive BuilderCall where
  | hostAuth
  | dbName (db_name : String)
  | user (user : String)
  | password (password : String)
  | initSql (init_sql : CopyDataSource)
  | fsyncEnabled
deriving DecidableEq, Repr

/-- Apply one builder call to a `Postgis` value. -/
def applyCall (p : Postgis) : BuilderCall → Postgis
  | .hostAuth => p.with_host_auth
  | .dbName s => p.with_db_name s
  | .user s => p.with_user s
  | .password s => p.with_password s
  | .initSql s => p.with_init_sql s
  | .fsyncEnabled => p.with_fsync_enabled

/-- Apply a sequence of builder calls, left to right. -/
def applyCalls (p : Postgis) (cs : List BuilderCall) : Postgis :=
  cs.foldl applyCall p

/-- The method (not the argument) of a builder call, as a discriminant. -/
def methodOf : BuilderCall → Nat
  | .hostAuth => 0
  | .dbName _ => 1
  | .user _ => 2
  | .password _ => 3
  | .initSql _ => 4
  | .fsyncEnabled => 5

/-- The complete tuple of accessor outputs of a `Postgis` value, i.e. all
observable behaviour through the `Image` capability interface. -/
def observation (p : Postgis) :
    String × String × List WaitFor × List (String × String) ×
      List CopyToContainer × List String :=
  (p.name, p.tag, p.ready_conditions, p.env_vars, p.copy_to_sources, p.cmd)

/-- Inserting the same binding twice is the same as inserting it once. -/
theorem envInsert_idem (k v : String) :
    ∀ m, envInsert k v (envInsert k v m) = envInsert k v m := by
  intro m
  induction m with
  | nil => simp [envInsert]
  | cons hd tl ih =>
    obtain ⟨k₂, v₂⟩ := hd
    by_cases h1 : k = k₂
    · simp [envInsert, h1]
    · by_cases h2 : k < k₂
      · simp [envInsert, h1, h2]
      · simp [envInsert, h1, h2, ih]

/-- Insertions at distinct keys commute (as canonical mappings). -/
theorem envInsert_comm (k₁ k₂ v₁ v₂ : String) (h : k₁ ≠ k₂) :
    ∀ m, envInsert k₁ v₁ (envInsert k₂ v₂ m) = envInsert k₂ v₂ (envInsert k₁ v₁ m) := by
  intro m
  induction m with
  | nil =>
    rcases lt_trichotomy k₁ k₂ with hlt | heq | hgt
    · simp [envInsert, h, Ne.symm h, hlt, asymm hlt]
    · exact absurd heq h
    · simp [envInsert, h, Ne.symm h, hgt, asymm hgt]
  | cons hd tl ih =>
    obtain ⟨k₃, v₃⟩ := hd
    by_cases h13 : k₁ = k₃ <;> by_cases h23 : k₂ = k₃
    · exact absurd (h13.trans h23.symm) h
    · subst h13
      rcases lt_trichotomy k₂ k₁ with hlt | heq | hgt
      · simp [envInsert, h, Ne.symm h, h23, hlt, asymm hlt]
      · exact absurd heq.symm h
      · simp [envInsert, h, Ne.symm h, h23, hgt, asymm hgt]
    · subst h23
      rcases lt_trichotomy k₁ k₂ with hlt | heq | hgt
      · simp [envInsert, h, Ne.symm h, h13, hlt, asymm hlt]
      · exact absurd heq h
      · simp [envInsert, h, Ne.symm h, h13, hgt, asymm hgt]
    · by_cases h1 : k₁ < k₃ <;> by_cases h2 : k₂ < k₃
      · rcases lt_trichotomy k₁ k₂ with hlt | heq | hgt
        · simp [envInsert, h, Ne.symm h, h13, h23, h1, h2, hlt, asymm hlt]
        · exact absurd heq h
        · simp [envInsert, h, Ne.symm h, h13, h23, h1, h2, hgt, asymm hgt]
      · have h31 : k₁ < k₂ := lt_trans h1 (lt_of_le_of_ne (not_lt.mp h2) (Ne.symm h23))
        simp [envInsert, h, Ne.symm h, h13, h23, h1, h2, h31, asymm h31]
      · have h32 : k₂ < k₁ := lt_trans h2 (lt_of_le_of_ne (not_lt.mp h1) (Ne.symm h13))
        simp [envInsert, h, Ne.symm h, h13, h23, h1, h2, h32, asymm h32]
      · simp [envInsert, h, Ne.symm h, h13, h23, h1, h2, ih]

/-- Looking up a key right after inserting it yields the inserted value. -/
theorem envLookup_envInsert (k v : String) :
    ∀ m, envLookup k (envInsert k v m) = some v := by
  intro m
  induction m with
  | nil => simp [envInsert, envLookup]
  | cons hd tl ih =>
    obtain ⟨k₂, v₂⟩ := hd
    by_cases h1 : k = k₂
    · simp [envInsert, envLookup, h1]
    · by_cases h2 : k < k₂
      · simp [envInsert, envLookup, h1, h2]
      · simp [envInsert, envLookup, h1, h2, Ne.symm h1, ih]

/-- Looking up a key distinct from the inserted one is unchanged. -/
theorem envLookup_envInsert_ne (k k₀ v : String) (h : k₀ ≠ k) :
    ∀ m, envLookup k (envInsert k₀ v m) = envLookup k m := by
  intro m
  induction m with
  | nil => simp [envInsert, envLookup, h]
  | cons hd tl ih =>
    obtain ⟨k₂, v₂⟩ := hd
    by_cases h1 : k₀ = k₂
    · subst h1
      simp [envInsert, envLookup, h]
    · by_cases h2 : k₀ < k₂
      · simp [envInsert, envLookup, h1, h2, h]
      · simp [envInsert, envLookup, h1, h2, ih]

/-- Claim C1: for every sequence of builder calls applied to a
default-constructed `Postgis`, the accessors `name` and `tag` return the
module's fixed override constants, never the identity of the inner base
`Postgres` value. -/
theorem claim_C1 (cs : List BuilderCall) :
    (applyCalls Postgis.default cs).name = NAME ∧
    (applyCalls Postgis.default cs).tag = TAG ∧
    (applyCalls Postgis.default cs).name ≠ Postgres.NAME ∧
    (applyCalls Postgis.default cs).tag ≠ Postgres.TAG :=
  ⟨rfl, rfl, (by decide : NAME ≠ Postgres.NAME), (by decide : TAG ≠ Postgres.TAG)⟩

/-- Claim C2: for every `Postgis` value, `ready_conditions`, `env_vars`,
`copy_to_sources` and `cmd` return exactly what the owned inner `Postgres`
value's accessor of the same name returns. -/
theorem claim_C2 (p : Postgis) :
    p.ready_conditions = p.base.ready_conditions ∧
    p.env_vars = p.base.env_vars ∧
    p.copy_to_sources = p.base.copy_to_sources ∧
    p.cmd = p.base.cmd :=
  ⟨rfl, rfl, rfl, rfl⟩

/-- Claim C5: a default-constructed `Postgis` has environment variables,
readiness conditions, files-to-stage list, and startup command identical to
those of a default-constructed base `Postgres`, differing only in identity. -/
theorem claim_C5 :
    Postgis.default.env_vars = Postgres.default.env_vars ∧
    Postgis.default.ready_conditions = Postgres.default.ready_conditions ∧
    Postgis.default.copy_to_sources = Postgres.default.copy_to_sources ∧
    Postgis.default.cmd = Postgres.default.cmd ∧
    (Postgis.default.name, Postgis.default.tag) ≠ (Postgres.NAME, Postgres.TAG) :=
  ⟨rfl, rfl, rfl, rfl, by decide⟩

/-- Claim C6: every builder operation and capability accessor of `Postgis`
is total and infallible: every sequence of builder calls (with arbitrary,
possibly empty, string and SQL arguments) produces a configuration, and the
setters store even the empty string verbatim with no validation and no
error result. -/
theorem claim_C6 (p : Postgis) (cs : List BuilderCall) (s : String) :
    (∃ q : Postgis, applyCalls p cs = q) ∧
    envLookup "POSTGRES_DB" (p.with_db_name s).env_vars = some s ∧
    envLookup "POSTGRES_USER" (p.with_user s).env_vars = some s ∧
    envLookup "POSTGRES_PASSWORD" (p.with_password s).env_vars = some s :=
  ⟨⟨applyCalls p cs, rfl⟩,
    envLookup_envInsert _ s _, envLookup_envInsert _ s _, envLookup_envInsert _ s _⟩

/-- Claim C10: for every `Postgis` value, `name` returns exactly
"postgis/postgis" and `tag` returns exactly "17-3.5"; both are module
constants whose values do not depend on the receiver or on any builder
call. -/
theorem claim_C10 (p : Postgis) :
    p.name = "postgis/postgis" ∧ p.tag = "17-3.5" ∧
    ∀ c : BuilderCall, (applyCall p c).name = p.name ∧ (applyCall p c).tag = p.tag :=
  ⟨rfl, rfl, fun _ => ⟨rfl, rfl⟩⟩

/-- Order facts about the four environment-variable keys, used to evaluate
`envInsert` on concrete configurations. -/
theorem key_db_lt_host : ("POSTGRES_DB" : String) < "POSTGRES_HOST_AUTH_METHOD" := by
  rw [String.lt_iff_toList_lt]; decide

/-- The db key sorts before the password key. -/
theorem key_db_lt_pw : ("POSTGRES_DB" : String) < "POSTGRES_PASSWORD" := by
  rw [String.lt_iff_toList_lt]; decide

/-- The db key sorts before the user key. -/
theorem key_db_lt_user : ("POSTGRES_DB" : String) < "POSTGRES_USER" := by
  rw [String.lt_iff_toList_lt]; decide

/-- The host-auth key sorts before the password key. -/
theorem key_host_lt_pw : ("POSTGRES_HOST_AUTH_METHOD" : String) < "POSTGRES_PASSWORD" := by
  rw [String.lt_iff_toList_lt]; decide

/-- The host-auth key sorts before the user key. -/
theorem key_host_lt_user : ("POSTGRES_HOST_AUTH_METHOD" : String) < "POSTGRES_USER" := by
  rw [String.lt_iff_toList_lt]; decide

/-- The password key sorts before the user key. -/
theorem key_pw_lt_user : ("POSTGRES_PASSWORD" : String) < "POSTGRES_USER" := by
  rw [String.lt_iff_toList_lt]; decide

/-- Claim C4: each of `with_host_auth`, `with_db_name`, `with_user`,
`with_password`, `with_fsync_enabled` is idempotent under repetition with
the same argument: all accessor outputs agree with a single application. -/
theorem claim_C4 (p : Postgis) (s : String) :
    observation p.with_host_auth.with_host_auth = observation p.with_host_auth ∧
    observation ((p.with_db_name s).with_db_name s) = observation (p.with_db_name s) ∧
    observation ((p.with_user s).with_user s) = observation (p.with_user s) ∧
    observation ((p.with_password s).with_password s) = observation (p.with_password s) ∧
    observation p.with_fsync_enabled.with_fsync_enabled = observation p.with_fsync_enabled := by
  refine ⟨?_, ?_, ?_, ?_, ?_⟩ <;>
    simp [observation, Postgis.name, Postgis.tag, Postgis.ready_conditions, Postgis.env_vars,
      Postgis.copy_to_sources, Postgis.cmd, Postgis.with_host_auth, Postgis.with_db_name,
      Postgis.with_user, Postgis.with_password, Postgis.with_fsync_enabled,
      Postgres.with_host_auth, Postgres.with_db_name, Postgres.with_user,
      Postgres.with_password, Postgres.with_fsync_enabled, Postgres.ready_conditions,
      Postgres.cmd, envInsert_idem]

/-- Claim C7: the chain
`default().with_db_name("geo").with_user("admin").with_password("secret")`
maps the db-name key to "geo", the user key to "admin" and the password key
to "secret", and its identity is the fixed override pair, not the base's. -/
theorem claim_C7 :
    envLookup "POSTGRES_DB"
        (((Postgis.default.with_db_name "geo").with_user "admin").with_password
          "secret").env_vars = some "geo" ∧
    envLookup "POSTGRES_USER"
        (((Postgis.default.with_db_name "geo").with_user "admin").with_password
          "secret").env_vars = some "admin" ∧
    envLookup "POSTGRES_PASSWORD"
        (((Postgis.default.with_db_name "geo").with_user "admin").with_password
          "secret").env_vars = some "secret" ∧
    ((((Postgis.default.with_db_name "geo").with_user "admin").with_password "secret").name,
      (((Postgis.default.with_db_name "geo").with_user "admin").with_password "secret").tag) =
      (NAME, TAG) ∧
    ((((Postgis.default.with_db_name "geo").with_user "admin").with_password "secret").name,
      (((Postgis.default.with_db_name "geo").with_user "admin").with_password "secret").tag) ≠
      (Postgres.NAME, Postgres.TAG) := by
  refine ⟨?_, ?_, ?_, ?_, ?_⟩ <;>
    simp [Postgis.default, Postgres.default, Postgis.with_db_name, Postgis.with_user,
      Postgis.with_password, Postgres.with_db_name, Postgres.with_user, Postgres.with_password,
      Postgis.env_vars, Postgis.name, Postgis.tag, NAME, TAG, Postgres.NAME, Postgres.TAG,
      envInsert, envLookup, key_db_lt_pw, key_db_lt_user, key_pw_lt_user,
      asymm key_db_lt_pw, asymm key_db_lt_user, asymm key_pw_lt_user]

/-- Claim C8: after `default().with_host_auth()`, the trust/no-auth marker
variable is set, and the user and password entries are exactly those of a
default-constructed value. -/
theorem claim_C8 :
    envLookup "POSTGRES_HOST_AUTH_METHOD" Postgis.default.with_host_auth.env_vars =
      some "trust" ∧
    envLookup "POSTGRES_USER" Postgis.default.with_host_auth.env_vars =
      envLookup "POSTGRES_USER" Postgis.default.env_vars ∧
    envLookup "POSTGRES_PASSWORD" Postgis.default.with_host_auth.env_vars =
      envLookup "POSTGRES_PASSWORD" Postgis.default.env_vars := by
  refine ⟨?_, ?_, ?_⟩ <;>
    simp [Postgis.default, Postgres.default, Postgis.with_host_auth, Postgres.with_host_auth,
      Postgis.env_vars, envInsert, envLookup, key_db_lt_host, key_host_lt_pw, key_host_lt_user,
      asymm key_db_lt_host, asymm key_host_lt_pw, asymm key_host_lt_user]

/-- Claim C3: `with_init_sql A` then `with_init_sql B` stages A's entry
before B's; the opposite order stages B's before A's; for distinct scripts
the two configurations are observably different; and no call to
`with_init_sql` ever removes or overwrites a previously added script. -/
theorem claim_C3 (p : Postgis) (A B : CopyDataSource) (hAB : A ≠ B) :
    ((p.with_init_sql A).with_init_sql B).copy_to_sources =
      p.copy_to_sources ++
        [⟨A, "/docker-entrypoint-initdb.d/init_" ++
            toString p.copy_to_sources.length ++ ".sql"⟩,
         ⟨B, "/docker-entrypoint-initdb.d/init_" ++
            toString (p.copy_to_sources.length + 1) ++ ".sql"⟩] ∧
    ((p.with_init_sql B).with_init_sql A).copy_to_sources =
      p.copy_to_sources ++
        [⟨B, "/docker-entrypoint-initdb.d/init_" ++
            toString p.copy_to_sources.length ++ ".sql"⟩,
         ⟨A, "/docker-entrypoint-initdb.d/init_" ++
            toString (p.copy_to_sources.length + 1) ++ ".sql"⟩] ∧
    observation ((p.with_init_sql A).with_init_sql B) ≠
      observation ((p.with_init_sql B).with_init_sql A) ∧
    ∀ (q : Postgis) (s : CopyDataSource), ∃ e : CopyToContainer,
      (q.with_init_sql s).copy_to_sources = q.copy_to_sources ++ [e] := by
  refine ⟨?_, ?_, ?_, fun q s => ⟨_, rfl⟩⟩
  · simp [Postgis.with_init_sql, Postgres.with_init_sql, Postgis.copy_to_sources]
  · simp [Postgis.with_init_sql, Postgres.with_init_sql, Postgis.copy_to_sources]
  · intro h
    simp [observation, Postgis.with_init_sql, Postgres.with_init_sql, Postgis.copy_to_sources,
      Postgis.env_vars, Postgis.cmd, Postgis.ready_conditions, hAB] at h

/-- Witness for claim C3 at a concrete input: two distinct one-byte inline
scripts staged in the two orders give observably different values. -/
theorem claim_C3_witness :
    CopyDataSource.data [0] ≠ CopyDataSource.data [1] ∧
    observation ((Postgis.default.with_init_sql (CopyDataSource.data [0])).with_init_sql
        (CopyDataSource.data [1])) ≠
      observation ((Postgis.default.with_init_sql (CopyDataSource.data [1])).with_init_sql
        (CopyDataSource.data [0])) :=
  ⟨by decide,
    (claim_C3 Postgis.default (CopyDataSource.data [0]) (CopyDataSource.data [1])
      (by decide)).2.2.1⟩

/-- Claim C9: configuration is deterministic, and order-independent apart
from init-SQL accumulation: two builder calls of distinct methods (neither
being `with_init_sql`) commute up to all accessor outputs, and repeating a
chain from the same starting value gives the same result. -/
theorem claim_C9 (p : Postgis) (c₁ c₂ : BuilderCall)
    (h₁ : methodOf c₁ ≠ 4) (h₂ : methodOf c₂ ≠ 4) (hne : methodOf c₁ ≠ methodOf c₂) :
    observation (applyCall (applyCall p c₁) c₂) =
      observation (applyCall (applyCall p c₂) c₁) ∧
    ∀ cs : List BuilderCall, applyCalls p cs = applyCalls p cs := by
  refine ⟨?_, fun cs => rfl⟩
  cases c₁ <;> cases c₂ <;>
    first
      | exact absurd rfl hne
      | exact absurd rfl h₁
      | exact absurd rfl h₂
      | rfl
      | (simp only [observation, applyCall, Postgis.with_host_auth, Postgis.with_db_name,
          Postgis.with_user, Postgis.with_password, Postgres.with_host_auth,
          Postgres.with_db_name, Postgres.with_user, Postgres.with_password,
          Postgis.env_vars, Postgis.name, Postgis.tag, Postgis.cmd,
          Postgis.ready_conditions, Postgis.copy_to_sources, Prod.mk.injEq]
         exact ⟨by trivial, by trivial, by trivial, envInsert_comm _ _ _ _ (by decide) _,
           by trivial, by trivial⟩)

/-- Witness for claim C9 at a concrete input: `with_db_name "a"` and
`with_user "b"` commute on a default-constructed value. -/
theorem claim_C9_witness :
    methodOf (BuilderCall.dbName "a") ≠ 4 ∧ methodOf (BuilderCall.user "b") ≠ 4 ∧
    methodOf (BuilderCall.dbName "a") ≠ methodOf (BuilderCall.user "b") ∧
    observation (applyCall (applyCall Postgis.default (BuilderCall.dbName "a"))
        (BuilderCall.user "b")) =
      observation (applyCall (applyCall Postgis.default (BuilderCall.user "b"))
        (BuilderCall.dbName "a")) :=
  ⟨by decide, by decide, by decide,
    (claim_C9 Postgis.default (BuilderCall.dbName "a") (BuilderCall.user "b")
      (by decide) (by decide) (by decide)).1⟩

end Testcontainers
